import Mathlib

/-!
Verification of the query-resolution and signal-retrieval workflow of the
"In One We Trust" frontend.

The development shallowly embeds the client page (`src/app/page.tsx`) and the
server-side relay handlers (`src/app/api/*`, plus the unnamed route files) as
pure Lean functions.  Network calls are modelled by an oracle value of type
`FetchOutcome` supplied to each operation: `success` stands for an HTTP 2xx
response whose body parsed, and `failure` collapses the three situations that
all reach the `catch` block of the source (non-2xx status, transport error,
JSON parse error).  React state updates become explicit transformations of a
`ClientState` record.
-/

/-! ## JavaScript string primitives

The source manipulates strings with `trim`, `toUpperCase`, `.length` and the
regex `/^[A-Za-z0-9 .-]+$/`.  These are embedded below.  `toUpperCase` is
modelled on the ASCII range, which is exact for every string the page's
validated alphabet can produce. -/

/-- Characters removed by JavaScript `String.prototype.trim`: the ECMAScript
WhiteSpace and LineTerminator sets. -/
def isJsWhitespace (c : Char) : Bool :=
  let n := c.toNat
  n = 9 || n = 10 || n = 11 || n = 12 || n = 13 || n = 32 ||
  n = 0xa0 || n = 0x1680 || (0x2000 <= n && n <= 0x200a) ||
  n = 0x2028 || n = 0x2029 || n = 0x202f || n = 0x205f || n = 0x3000 ||
  n = 0xfeff

/-- JavaScript `String.prototype.trim`: strip leading and trailing
whitespace. -/
def jsTrim (s : String) : String :=
  ⟨((s.data.dropWhile isJsWhitespace).reverse.dropWhile isJsWhitespace).reverse⟩

/-- JavaScript `String.prototype.length` counts UTF-16 code units: characters
above U+FFFF count twice. -/
def jsLength (s : String) : Nat :=
  (s.data.map (fun c => if 65536 ≤ c.toNat then 2 else 1)).sum

/-- ASCII uppercasing of one character, as JavaScript `toUpperCase` acts on
the ASCII range: code points 97-122 (`a`-`z`) shift down by 32. -/
def upperChar (c : Char) : Char :=
  if 97 ≤ c.toNat ∧ c.toNat ≤ 122 then Char.ofNat (c.toNat - 32) else c

/-- The QueryNormalizer of the spec: `toUpperCase`, applied by the search
input's `onChange` handler in `src/app/page.tsx`.  (Named `normalizeQuery`
because Mathlib already declares a root-level `normalize`.) -/
def normalizeQuery (s : String) : String :=
  ⟨s.data.map upperChar⟩

/-- Membership in the regex character class `[A-Za-z0-9 .-]`. -/
def isAllowedChar (c : Char) : Bool :=
  ('A' ≤ c && c ≤ 'Z') || ('a' ≤ c && c ≤ 'z') || ('0' ≤ c && c ≤ '9') ||
  c = ' ' || c = '.' || c = '-'

/-- The test `/^[A-Za-z0-9 .-]+$/.test(s)`: true iff `s` is non-empty and
every character lies in the class. -/
def matchesQueryRegex (s : String) : Bool :=
  !s.data.isEmpty && s.data.all isAllowedChar

/-! ## Validation (`validateQuery`, src/app/page.tsx lines 113-120)

The source returns `null` on success and an error message string otherwise;
this is `Option String` here, with the three literal messages named after the
spec's error taxonomy. -/

/-- Message returned by `validateQuery` when the trimmed input is empty. -/
def EmptyQuery : String := "Query cannot be empty."

/-- Message returned by `validateQuery` when the trimmed input exceeds 50
characters. -/
def QueryTooLong : String := "Query too long."

/-- Message returned by `validateQuery` when the trimmed input fails the
character-class regex. -/
def InvalidCharacters : String := "Query contains invalid characters."

/-- `validateQuery` from `src/app/page.tsx`: trim, then check emptiness,
length, and the character class, in that order. -/
def validateQuery (input : String) : Option String :=
  let trimmed := jsTrim input
  if trimmed = "" then some EmptyQuery
  else if 50 < jsLength trimmed then some QueryTooLong
  else if !matchesQueryRegex trimmed then some InvalidCharacters
  else none

/-! ## Data model (src/app/page.tsx lines 15-32) -/

/-- Discriminant of `SearchResult.type` in the source: `"ticker" | "company"`. -/
inductive ResultType where
  | ticker
  | company
deriving DecidableEq, Repr

/-- The `SearchResult` record.  The source field `type` is called `rtype`
here because of the Lean keyword. -/
structure SearchResult where
  query : String
  normalized : String
  rtype : ResultType
  suggestions : List String
deriving DecidableEq, Repr

/-- Discriminant of `Signal.action`: `"BUY" | "SELL" | "HOLD"`.  (Named
`SignalAction` because Mathlib already declares a root-level `Action`.) -/
inductive SignalAction where
  | BUY
  | SELL
  | HOLD
deriving DecidableEq, Repr

/-- The `Signal` record.  `score` is a JavaScript number that the client
treats as an opaque displayable value; no arithmetic is performed on it, so
it is modelled as `Int`. -/
structure Signal where
  symbol : String
  action : SignalAction
  score : Int
  reasons : List String
deriving DecidableEq, Repr

/-- The `LuckyResponse` record. -/
structure LuckyResponse where
  picks : List Signal
  note : String
deriving DecidableEq, Repr

/-! ## Symbol selection

The inline expression in `getSignal` (src/app/page.tsx lines 169-172):

  `result.type === "ticker" ? result.normalized
                            : result.suggestions?.[0] || result.normalized`

The `||` falls through to `normalized` whenever `suggestions?.[0]` is falsy,
which happens both when the list is empty (`undefined`) and when its first
element is the empty string. -/

/-- `selectSymbol` (spec name for the `sym` selection in `getSignal`). -/
def selectSymbol (result : SearchResult) : String :=
  match result.rtype with
  | .ticker => result.normalized
  | .company =>
    match result.suggestions.head? with
    | none => result.normalized
    | some first => if first = "" then result.normalized else first

/-! ## Client state machine (src/app/page.tsx)

Each `useState` slot of the `Home` component becomes one field.  The network
is an oracle: a `FetchOutcome` value decides how the single `fetch` of an
operation turns out. -/

/-- Outcome of one `fetch` from the client's point of view.  `success` is an
HTTP 2xx response whose body parsed as the expected type; `failure` covers a
non-2xx status (the source throws on `!r.ok`), a transport error, and a JSON
parse error — all three land in the same `catch` block. -/
inductive FetchOutcome (α : Type) where
  | success (data : α)
  | failure
deriving DecidableEq, Repr

/-- The React state of the `Home` component. -/
structure ClientState where
  status : Option String
  error : Option String
  q : String
  result : Option SearchResult
  signal : Option Signal
  lucky : Option LuckyResponse
  loading : Bool
deriving DecidableEq, Repr

/-- Error message set by the `!base` guards. -/
def BaseNotConfigured : String := "API base not configured."

/-- Error message set by `performSearch` on a failed fetch. -/
def SearchFailed : String := "Search failed. Please try again."

/-- Error message set by `getSignal` on a failed fetch. -/
def SignalFailed : String := "Failed to fetch signal."

/-- Error message set by `feelingLucky` on a failed fetch. -/
def LuckyFailed : String := "Failed to fetch lucky picks."

/-- Phase of `performSearch` before its `fetch` (src/app/page.tsx lines
123-132): `Sum.inl` is an early return with no network request (missing
`base`); `Sum.inr` carries the state at the moment the request is
dispatched, after the four clearing calls, together with the string placed
(URI-encoded) in the `q` parameter of the upstream search URL. -/
def performSearchStart (base : Bool) (query : String) (s : ClientState) :
    ClientState ⊕ (ClientState × String) :=
  if !base then Sum.inl { s with error := some BaseNotConfigured }
  else Sum.inr ({ s with result := none, signal := none, lucky := none,
                         error := none },
                query)

/-- Phase of `performSearch` after its `fetch` resolves (lines 133-142). -/
def performSearchFinish (outcome : FetchOutcome SearchResult)
    (s : ClientState) : ClientState :=
  match outcome with
  | .success data => { s with result := some data }
  | .failure => { s with error := some SearchFailed }

/-- `performSearch` (src/app/page.tsx lines 123-142). -/
def performSearch (base : Bool) (outcome : FetchOutcome SearchResult)
    (query : String) (s : ClientState) : ClientState :=
  match performSearchStart base query s with
  | Sum.inl s1 => s1
  | Sum.inr (s1, _q) => performSearchFinish outcome s1

/-- `onSearch` (src/app/page.tsx lines 144-154): validate the live query
`q`; on failure store the message and stop, otherwise raise `loading`, run
`performSearch q`, and lower `loading`.  Note that the argument passed to
`performSearch` is `q` itself, not its trimmed form. -/
def onSearch (base : Bool) (outcome : FetchOutcome SearchResult)
    (s : ClientState) : ClientState :=
  match validateQuery s.q with
  | some msg => { s with error := some msg }
  | none =>
    { performSearch base outcome s.q { s with loading := true } with
        loading := false }

/-- The string an `onSearch` invocation submits to the upstream search
endpoint (pre-encoding), or `none` when no search request is dispatched —
read off the two phases of the embedded `onSearch`. -/
def onSearchDispatchedQuery (base : Bool) (s : ClientState) : Option String :=
  match validateQuery s.q with
  | some _ => none
  | none =>
    match performSearchStart base s.q { s with loading := true } with
    | Sum.inl _ => none
    | Sum.inr (_s1, q) => some q

/-- Phase of `getSignal` before its `fetch` (src/app/page.tsx lines
156-172): `Sum.inl` is an early return with no network request (no held
`result`, or missing `base`); `Sum.inr` carries the state at dispatch time
together with the symbol placed in the request path. -/
def getSignalStart (base : Bool) (s : ClientState) :
    ClientState ⊕ (ClientState × String) :=
  match s.result with
  | none => Sum.inl s
  | some result =>
    if !base then Sum.inl { s with error := some BaseNotConfigured }
    else Sum.inr ({ s with loading := true, signal := none, lucky := none,
                           error := none },
                  selectSymbol result)

/-- Phase of `getSignal` after its `fetch` resolves (lines 174-185); the
`finally` clause lowers `loading` on both branches. -/
def getSignalFinish (outcome : FetchOutcome Signal) (s : ClientState) :
    ClientState :=
  match outcome with
  | .success data => { s with signal := some data, loading := false }
  | .failure => { s with error := some SignalFailed, loading := false }

/-- `getSignal` (src/app/page.tsx lines 156-185). -/
def getSignal (base : Bool) (outcome : FetchOutcome Signal)
    (s : ClientState) : ClientState :=
  match getSignalStart base s with
  | Sum.inl s1 => s1
  | Sum.inr (s1, _sym) => getSignalFinish outcome s1

/-- Phase of `feelingLucky` before its `fetch` (src/app/page.tsx lines
187-196). -/
def feelingLuckyStart (base : Bool) (s : ClientState) :
    ClientState ⊕ ClientState :=
  if !base then Sum.inl { s with error := some BaseNotConfigured }
  else Sum.inr { s with loading := true, signal := none, lucky := none,
                        error := none }

/-- Phase of `feelingLucky` after its `fetch` resolves (lines 198-209). -/
def feelingLuckyFinish (outcome : FetchOutcome LuckyResponse)
    (s : ClientState) : ClientState :=
  match outcome with
  | .success data => { s with lucky := some data, loading := false }
  | .failure => { s with error := some LuckyFailed, loading := false }

/-- `feelingLucky` (src/app/page.tsx lines 187-209). -/
def feelingLucky (base : Bool) (outcome : FetchOutcome LuckyResponse)
    (s : ClientState) : ClientState :=
  match feelingLuckyStart base s with
  | Sum.inl s1 => s1
  | Sum.inr s1 => feelingLuckyFinish outcome s1

/-! ## Server-side relay handlers

The repository contains route handlers that forward a request to the
configured upstream base URL and rebuild a response from the upstream one.
They are embedded as functions from the upstream response to the relay's own
response; the upstream call itself (URL, `X-Api-Key` header) does not affect
the response mapping. -/

/-- What the relay sees of the upstream response: status code, body text,
and the optional `Content-Type` header. -/
structure UpstreamResponse where
  status : Nat
  body : String
  contentType : Option String
deriving DecidableEq, Repr

/-- The response a relay hands back to the browser. -/
structure RelayResponse where
  status : Nat
  body : String
  headers : List (String × String)
deriving DecidableEq, Repr

/-- The search relay (first handler of src/unnamed/part_002): passes status
and body through and defaults the content type.  `q` is the forwarded query
parameter; it does not influence the response mapping. -/
def searchRelayGET (_q : String) (u : UpstreamResponse) : RelayResponse :=
  { status := u.status, body := u.body,
    headers := [("Content-Type", u.contentType.getD "application/json")] }

/-- The lucky relay (second handler of src/unnamed/part_002). -/
def luckyRelayGET (u : UpstreamResponse) : RelayResponse :=
  { status := u.status, body := u.body,
    headers := [("Content-Type", u.contentType.getD "application/json")] }

/-- The signal relay (second handler of src/unnamed/part_003).  `symbol` is
the forwarded path parameter; it does not influence the response mapping. -/
def signalRelayGET (_symbol : String) (u : UpstreamResponse) : RelayResponse :=
  { status := u.status, body := u.body,
    headers := [("Content-Type", u.contentType.getD "application/json")] }

/-- The health relay at `src/app/api/health/route.ts`: same verbatim
passthrough shape as the other relays.  It sets no `Cache-Control` header. -/
def healthRelayGET (u : UpstreamResponse) : RelayResponse :=
  { status := u.status, body := u.body,
    headers := [("Content-Type", u.contentType.getD "application/json")] }

/-- The other health relay variant (first handler of src/unnamed/part_003):
`Response.json(await r.json(), { headers: ... })`.  `parse` is the outcome
of `await r.json()` followed by the serialization `Response.json` performs,
supplied as an oracle: `some t` when the upstream body is valid JSON whose
parse re-serializes as `t`, and `none` when `r.json()` throws.  On a throw
the handler produces no response of its own (`none`: the exception escapes
and the framework answers 500); on success it replies 200 — `Response.json`
with no `status` option ignores the upstream status — with the
re-serialized body and a `Cache-Control: no-store` header. -/
def healthRelayJsonGET (_u : UpstreamResponse) (parse : Option String) :
    Option RelayResponse :=
  match parse with
  | none => none
  | some reserialized =>
    some { status := 200, body := reserialized,
           headers := [("Content-Type", "application/json"),
                       ("Cache-Control", "no-store")] }

/-- Whether a relay response carries the non-cacheable marking used by the
repository (`Cache-Control: no-store`). -/
def nonCacheable (r : RelayResponse) : Bool :=
  r.headers.contains ("Cache-Control", "no-store")

/-! ## Concrete fixtures used by witnesses and counterexamples -/

/-- A resolved company-type search result with one suggestion, as in the
spec's end-to-end example. -/
def resDemo : SearchResult :=
  { query := "TESLA", normalized := "TESLA", rtype := .company,
    suggestions := ["TSLA"] }

/-- A company-type search result whose suggestions list is non-empty but
starts with the empty string. -/
def resEmptyFirst : SearchResult :=
  { query := "TESLA", normalized := "TESLA", rtype := .company,
    suggestions := [""] }

/-- The demo signal of the spec's end-to-end example. -/
def sigDemo : Signal :=
  { symbol := "TSLA", action := .HOLD, score := 0, reasons := ["demo"] }

/-- A demo lucky-picks response. -/
def luckyDemo : LuckyResponse :=
  { picks := [sigDemo], note := "demo" }

/-- A client state holding a live search result, as after a successful
search. -/
def stateWithResult : ClientState :=
  { status := some "ok", error := none, q := "TESLA", result := some resDemo,
    signal := none, lucky := none, loading := false }

/-- A client state with no live search result. -/
def stateNoResult : ClientState :=
  { status := some "ok", error := some "old error", q := "TESLA",
    result := none, signal := some sigDemo, lucky := none, loading := false }

/-- An upstream response that omits the `Content-Type` header. -/
def upNoCT : UpstreamResponse :=
  { status := 200, body := "ok", contentType := none }

/-- An upstream failure response with an explicit content type. -/
def upFail : UpstreamResponse :=
  { status := 503, body := "unavailable", contentType := some "text/plain" }

/-- An upstream failure response whose body is nonetheless valid JSON (the
array `"[]"`), so the `Response.json` health variant parses it
successfully; `"[]"` re-serializes to `"[]"`. -/
def upFailJson : UpstreamResponse :=
  { status := 503, body := "[]", contentType := some "application/json" }

/-- Projection used to state the loading discipline for `getSignal`: `true`
vacuously when the operation returned before its `fetch`, and the value of
the `loading` flag at the dispatch point otherwise. -/
def signalLoadingAtDispatch (x : ClientState ⊕ (ClientState × String)) :
    Bool :=
  match x with
  | Sum.inl _ => true
  | Sum.inr p => p.1.loading

/-- Same projection for `feelingLucky`. -/
def luckyLoadingAtDispatch (x : ClientState ⊕ ClientState) : Bool :=
  match x with
  | Sum.inl _ => true
  | Sum.inr s1 => s1.loading

/-! ## Helper lemmas -/

/-- Evaluating `Char.ofNat` at a valid code point. -/
theorem toNat_ofNat_valid (n : Nat) (h : n.isValidChar) :
    (Char.ofNat n).toNat = n := by
  unfold Char.ofNat
  rw [dif_pos h]
  rfl

/-- `upperChar` on a lowercase letter shifts its code point down by 32. -/
theorem upperChar_toNat_of_lower (c : Char)
    (h : 97 ≤ c.toNat ∧ c.toNat ≤ 122) :
    (upperChar c).toNat = c.toNat - 32 := by
  unfold upperChar
  rw [if_pos h]
  exact toNat_ofNat_valid (c.toNat - 32) (Or.inl (by omega))

/-- `upperChar` is idempotent: an uppercased character is never lowercase. -/
theorem upperChar_idem (c : Char) : upperChar (upperChar c) = upperChar c := by
  by_cases h : 97 ≤ c.toNat ∧ c.toNat ≤ 122
  · have h2 := upperChar_toNat_of_lower c h
    conv_lhs => rw [upperChar]
    rw [if_neg (by rw [h2]; omega)]
  · conv_lhs => rw [upperChar]
    rw [upperChar, if_neg h, if_neg h]

/-- Negation of `List.all` is `List.any` of the negation. -/
theorem not_all_eq_any_not (l : List Char) (p : Char → Bool) :
    (!l.all p) = l.any fun c => !p c := by
  induction l with
  | nil => rfl
  | cons a l ih => simp [List.all_cons, List.any_cons, Bool.not_and, ih]

/-- A string whose character list is empty is the empty string. -/
theorem eq_empty_of_data_eq_nil (t : String) (h : t.data = []) : t = "" := by
  cases t
  simp_all [String.data]

/-- `normalizeQuery` is idempotent on every string. -/
theorem normalizeQuery_idem (x : String) :
    normalizeQuery (normalizeQuery x) = normalizeQuery x := by
  show String.mk ((x.data.map upperChar).map upperChar) =
    String.mk (x.data.map upperChar)
  rw [List.map_map]
  refine congrArg String.mk (List.map_congr_left fun a _ => ?_)
  exact upperChar_idem a

/-! ## Claim theorems -/

/-- C5: `validateQuery` checks its rules in a fixed order with first failure
winning — trimmed-empty gives `EmptyQuery`, then trimmed length over 50
gives `QueryTooLong`, then a character outside `[A-Za-z0-9 .-]` gives
`InvalidCharacters`, and otherwise validation succeeds; in particular `""`
and `"   "` both fail with `EmptyQuery`. -/
theorem validateQuery_checks_in_order (s : String) :
    validateQuery s =
      (if jsTrim s = "" then some EmptyQuery
       else if 50 < jsLength (jsTrim s) then some QueryTooLong
       else if (jsTrim s).data.any (fun c => !isAllowedChar c) then
         some InvalidCharacters
       else none) ∧
    validateQuery "" = some EmptyQuery ∧
    validateQuery "   " = some EmptyQuery := by
  refine ⟨?_, by decide, by decide⟩
  show (if jsTrim s = "" then some EmptyQuery
        else if 50 < jsLength (jsTrim s) then some QueryTooLong
        else if !matchesQueryRegex (jsTrim s) then some InvalidCharacters
        else none) = _
  by_cases h1 : jsTrim s = ""
  · rw [if_pos h1, if_pos h1]
  · rw [if_neg h1, if_neg h1]
    by_cases h2 : 50 < jsLength (jsTrim s)
    · rw [if_pos h2, if_pos h2]
    · rw [if_neg h2, if_neg h2]
      have hne : (jsTrim s).data.isEmpty = false := by
        cases hq : (jsTrim s).data
        · exact absurd (eq_empty_of_data_eq_nil _ hq) h1
        · rfl
      have hcond : (!matchesQueryRegex (jsTrim s)) =
          (jsTrim s).data.any fun c => !isAllowedChar c := by
        unfold matchesQueryRegex
        rw [hne, Bool.not_and, Bool.not_not, not_all_eq_any_not]
        simp
      rw [hcond]

/-- C4 counterexample: the string `"\t"` contains a character outside
`[A-Za-z0-9 .-]`, yet `validateQuery` reports `EmptyQuery`, not
`InvalidCharacters` — the tab is removed by the trim that runs first. -/
theorem validateQuery_invalid_chars_cex :
    ("\t").data.any (fun c => !isAllowedChar c) = true ∧
    validateQuery "\t" = some EmptyQuery ∧
    EmptyQuery ≠ InvalidCharacters := by
  refine ⟨by decide, by decide, by decide⟩

/-- C4 amended: for every string whose trimmed form is non-empty, at most 50
units long, and contains a character outside `[A-Za-z0-9 .-]`,
`validateQuery` fails with `InvalidCharacters`. -/
theorem validateQuery_invalid_chars (s : String)
    (h1 : jsTrim s ≠ "") (h2 : jsLength (jsTrim s) ≤ 50)
    (h3 : (jsTrim s).data.any (fun c => !isAllowedChar c) = true) :
    validateQuery s = some InvalidCharacters := by
  have hall : (jsTrim s).data.all isAllowedChar = false := by
    rw [← not_all_eq_any_not] at h3
    cases hb : (jsTrim s).data.all isAllowedChar
    · rfl
    · rw [hb] at h3
      exact absurd h3 (by decide)
  have hm : matchesQueryRegex (jsTrim s) = false := by
    unfold matchesQueryRegex
    rw [hall, Bool.and_false]
  show (if jsTrim s = "" then some EmptyQuery
        else if 50 < jsLength (jsTrim s) then some QueryTooLong
        else if !matchesQueryRegex (jsTrim s) then some InvalidCharacters
        else none) = some InvalidCharacters
  rw [if_neg h1, if_neg (by omega : ¬ 50 < jsLength (jsTrim s)),
      if_pos (by rw [hm]; rfl)]

/-- C4 witness: `"AAPL$"` satisfies the amended hypotheses and is rejected
with `InvalidCharacters`. -/
theorem validateQuery_invalid_chars_witness :
    jsTrim "AAPL$" ≠ "" ∧ jsLength (jsTrim "AAPL$") ≤ 50 ∧
    validateQuery "AAPL$" = some InvalidCharacters :=
  ⟨by decide, by decide,
   validateQuery_invalid_chars "AAPL$" (by decide) (by decide) (by decide)⟩

/-- A client state whose live input is the untrimmed, uppercased form of
typing `"  tesla  "` into the search box. -/
def stateRawQuery : ClientState :=
  { status := some "ok", error := none, q := "  TESLA  ", result := none,
    signal := none, lucky := none, loading := false }

/-- C2 counterexample: typing `"  tesla  "` leaves `q = "  TESLA  "` (the
input handler uppercases), validation passes, and the string dispatched to
the search endpoint is the untrimmed `"  TESLA  "`, not the trimmed
`"TESLA"` the claim says is sent. -/
theorem search_submits_trimmed_cex :
    normalizeQuery "  tesla  " = stateRawQuery.q ∧
    onSearchDispatchedQuery true stateRawQuery = some "  TESLA  " ∧
    jsTrim stateRawQuery.q = "TESLA" ∧
    ("  TESLA  " : String) ≠ "TESLA" := by
  refine ⟨by decide, by decide, by decide, by decide⟩

/-- C2 amended: for every state whose live input passes validation, the
string submitted to the upstream search endpoint is that raw input itself —
already uppercased by the input handler but with its leading and trailing
whitespace retained, not the trimmed form (validation only inspects the
trimmed form). -/
theorem search_submits_raw_query (s : ClientState)
    (h : validateQuery s.q = none) :
    onSearchDispatchedQuery true s = some s.q := by
  simp [onSearchDispatchedQuery, performSearchStart, h]

/-- C2 witness: with live input `"TESLA"` the dispatched search query is
`"TESLA"` itself. -/
theorem search_submits_raw_query_witness :
    validateQuery stateWithResult.q = none ∧
    onSearchDispatchedQuery true stateWithResult = some stateWithResult.q :=
  ⟨by decide, search_submits_raw_query stateWithResult (by decide)⟩

/-- C9: `normalizeQuery` (uppercasing) is idempotent on every valid string
and case-insensitive-stable on the spec's example. -/
theorem normalizeQuery_idempotent_and_stable (x : String)
    (_hx : validateQuery x = none) :
    normalizeQuery (normalizeQuery x) = normalizeQuery x ∧
    normalizeQuery "aapl" = "AAPL" ∧ normalizeQuery "AAPL" = "AAPL" :=
  ⟨normalizeQuery_idem x, by decide, by decide⟩

/-- C9 witness: instantiated at the valid string `"aapl"`. -/
theorem normalizeQuery_idempotent_and_stable_witness :
    validateQuery "aapl" = none ∧
    (normalizeQuery (normalizeQuery "aapl") = normalizeQuery "aapl" ∧
     normalizeQuery "aapl" = "AAPL" ∧ normalizeQuery "AAPL" = "AAPL") :=
  ⟨by decide, normalizeQuery_idempotent_and_stable "aapl" (by decide)⟩

/-- C3 counterexample: on a company result whose suggestions list is
non-empty but starts with the empty string, `selectSymbol` returns
`normalized`, not `suggestions[0]`. -/
theorem selectSymbol_first_suggestion_cex :
    resEmptyFirst.rtype = ResultType.company ∧
    resEmptyFirst.suggestions = [""] ∧
    selectSymbol resEmptyFirst = "TESLA" ∧
    ("TESLA" : String) ≠ "" := by
  refine ⟨by decide, by decide, by decide, by decide⟩

/-- C3 amended: `selectSymbol` returns `normalized` for ticker results; for
company results it returns the first suggestion when the suggestions
sequence is non-empty and that first element is itself non-empty, and falls
back to `normalized` both when the sequence is empty and when its first
element is the empty string (the `||` tests falsiness of `suggestions[0]`,
not emptiness of the sequence). -/
theorem selectSymbol_rule (r : SearchResult) :
    selectSymbol r =
      if r.rtype = ResultType.ticker then r.normalized
      else if h : 0 < r.suggestions.length then
        (if r.suggestions.get ⟨0, h⟩ = "" then r.normalized
         else r.suggestions.get ⟨0, h⟩)
      else r.normalized := by
  rcases r with ⟨q, n, t, sug⟩
  cases t
  · simp [selectSymbol]
  · cases sug with
    | nil => simp [selectSymbol]
    | cons a l => simp [selectSymbol]

/-- C10: for a company result with a non-empty suggestions sequence whose
first element is the empty string, the selected symbol is `normalized` —
the fallback triggers on falsiness of `suggestions[0]`, not emptiness of the
sequence. -/
theorem selectSymbol_falsy_fallback (r : SearchResult)
    (hc : r.rtype = ResultType.company)
    (hh : r.suggestions.head? = some "") :
    selectSymbol r = r.normalized := by
  simp [selectSymbol, hc, hh]

/-- C10 witness: instantiated at a result with `suggestions = [""]`. -/
theorem selectSymbol_falsy_fallback_witness :
    resEmptyFirst.rtype = ResultType.company ∧
    resEmptyFirst.suggestions.head? = some "" ∧
    selectSymbol resEmptyFirst = resEmptyFirst.normalized :=
  ⟨by decide, by decide,
   selectSymbol_falsy_fallback resEmptyFirst (by decide) (by decide)⟩

/-- C1 counterexample: `getSignal` on a state holding a search result stores
its new outcome while the prior `SearchResult` is never set to absent — it
survives into the post-state. -/
theorem result_invalidation_cex :
    stateWithResult.result = some resDemo ∧
    (getSignal true (FetchOutcome.success sigDemo) stateWithResult).signal =
      some sigDemo ∧
    (getSignal true (FetchOutcome.success sigDemo) stateWithResult).result =
      some resDemo := by
  refine ⟨by decide, by decide, by decide⟩

/-- C1 amended: at the start of a search request all four of the prior
`SearchResult`, `Signal`, `LuckyResponse` and error are set to absent before
the outcome is stored; at the start of a signal-fetch or lucky-pick request
the prior `Signal`, `LuckyResponse` and error are set to absent, but the
`SearchResult` is retained. -/
theorem result_invalidation_amended (s : ClientState) (r : SearchResult)
    (hr : s.result = some r) :
    performSearchStart true s.q s =
      Sum.inr ({ s with result := none, signal := none, lucky := none,
                        error := none }, s.q) ∧
    getSignalStart true s =
      Sum.inr ({ s with loading := true, signal := none, lucky := none,
                        error := none }, selectSymbol r) ∧
    feelingLuckyStart true s =
      Sum.inr { s with loading := true, signal := none, lucky := none,
                       error := none } := by
  refine ⟨?_, ?_, ?_⟩
  · simp [performSearchStart]
  · simp [getSignalStart, hr]
  · simp [feelingLuckyStart]

/-- C1 witness: the amended invalidation facts at a state holding a resolved
company result. -/
theorem result_invalidation_amended_witness :
    performSearchStart true stateWithResult.q stateWithResult =
      Sum.inr ({ stateWithResult with
                 result := none, signal := none, lucky := none,
                 error := none },
               stateWithResult.q) ∧
    getSignalStart true stateWithResult =
      Sum.inr ({ stateWithResult with
                 loading := true, signal := none, lucky := none,
                 error := none },
               selectSymbol resDemo) ∧
    feelingLuckyStart true stateWithResult =
      Sum.inr { stateWithResult with
                loading := true, signal := none, lucky := none,
                error := none } :=
  result_invalidation_amended stateWithResult resDemo (by decide)

/-- C7: starting from a quiescent state, `getSignal` and `feelingLucky` end
with `loading = false` under every fetch outcome, and whenever either
operation reaches its dispatch point the `loading` flag has been raised. -/
theorem loading_flag_discipline (base : Bool) (s : ClientState)
    (o1 : FetchOutcome Signal) (o2 : FetchOutcome LuckyResponse)
    (h : s.loading = false) :
    (getSignal base o1 s).loading = false ∧
    (feelingLucky base o2 s).loading = false ∧
    signalLoadingAtDispatch (getSignalStart base s) = true ∧
    luckyLoadingAtDispatch (feelingLuckyStart base s) = true := by
  cases hres : s.result <;> cases base <;> cases o1 <;> cases o2 <;>
    simp_all [getSignal, getSignalStart, getSignalFinish, feelingLucky,
      feelingLuckyStart, feelingLuckyFinish, signalLoadingAtDispatch,
      luckyLoadingAtDispatch]

/-- C7 witness: the loading discipline at a concrete quiescent state, with a
successful signal fetch and a failed lucky fetch. -/
theorem loading_flag_discipline_witness :
    stateWithResult.loading = false ∧
    ((getSignal true (FetchOutcome.success sigDemo) stateWithResult).loading =
       false ∧
     (feelingLucky true FetchOutcome.failure stateWithResult).loading =
       false ∧
     signalLoadingAtDispatch (getSignalStart true stateWithResult) = true ∧
     luckyLoadingAtDispatch (feelingLuckyStart true stateWithResult) =
       true) :=
  ⟨by decide,
   loading_flag_discipline true stateWithResult (FetchOutcome.success sigDemo)
     FetchOutcome.failure (by decide)⟩

/-- C8: invoking `getSignal` with no resolved `SearchResult` is a complete
no-op — the guard returns the state unchanged (`getSignal base o s = s`) and
the operation never reaches its dispatch point (`Sum.inl`: no network
request, no state mutation). -/
theorem getSignal_no_result_noop (base : Bool) (o : FetchOutcome Signal)
    (s : ClientState) (h : s.result = none) :
    getSignal base o s = s ∧ getSignalStart base s = Sum.inl s := by
  constructor <;> simp [getSignal, getSignalStart, h]

/-- C8 witness: instantiated at a state with no result and a stale signal
and error, which survive untouched. -/
theorem getSignal_no_result_noop_witness :
    stateNoResult.result = none ∧
    (getSignal true FetchOutcome.failure stateNoResult = stateNoResult ∧
     getSignalStart true stateNoResult = Sum.inl stateNoResult) :=
  ⟨by decide,
   getSignal_no_result_noop true FetchOutcome.failure stateNoResult
     (by decide)⟩

/-- C6 counterexample: the health relay at `src/app/api/health/route.ts`
carries no non-cacheable marking, and the alternative health relay variant,
fed an upstream 503 whose body `"[]"` is valid JSON (so `r.json()` succeeds
and the parse re-serializes to `"[]"`), replies 200 rather than the
upstream status — so no health relay satisfies the claimed conjunction of
verbatim passthrough and non-cacheable marking. -/
theorem health_relay_cex :
    nonCacheable (healthRelayGET upFail) = false ∧
    healthRelayJsonGET upFailJson (some "[]") =
      some { status := 200, body := "[]",
             headers := [("Content-Type", "application/json"),
                         ("Cache-Control", "no-store")] } ∧
    upFailJson.status = 503 := by
  refine ⟨by decide, by decide, by decide⟩

/-- C6 amended: the search, signal, and lucky relays and the health relay at
`src/app/api/health/route.ts` pass the upstream status and body through
verbatim and default the content type to `application/json` exactly when the
upstream omits one, but that health relay does not mark its response
non-cacheable; the other health relay variant parses the upstream body as
JSON — when parsing succeeds it does mark its response non-cacheable yet
replies 200 regardless of the upstream status and with the re-serialized
body rather than the verbatim one, and when the body is not valid JSON it
throws and produces no response of its own. -/
theorem relay_passthrough (q sym body1 : String) (u : UpstreamResponse) :
    ((searchRelayGET q u).status = u.status ∧
     (searchRelayGET q u).body = u.body ∧
     (searchRelayGET q u).headers.lookup "Content-Type" =
       some (u.contentType.getD "application/json")) ∧
    ((luckyRelayGET u).status = u.status ∧
     (luckyRelayGET u).body = u.body ∧
     (luckyRelayGET u).headers.lookup "Content-Type" =
       some (u.contentType.getD "application/json")) ∧
    ((signalRelayGET sym u).status = u.status ∧
     (signalRelayGET sym u).body = u.body ∧
     (signalRelayGET sym u).headers.lookup "Content-Type" =
       some (u.contentType.getD "application/json")) ∧
    ((healthRelayGET u).status = u.status ∧
     (healthRelayGET u).body = u.body ∧
     (healthRelayGET u).headers.lookup "Content-Type" =
       some (u.contentType.getD "application/json") ∧
     nonCacheable (healthRelayGET u) = false) ∧
    ((healthRelayJsonGET u (some body1)).map RelayResponse.status =
       some 200 ∧
     (healthRelayJsonGET u (some body1)).map RelayResponse.body =
       some body1 ∧
     (healthRelayJsonGET u (some body1)).map nonCacheable = some true ∧
     healthRelayJsonGET u none = none) := by
  refine ⟨⟨rfl, rfl, ?_⟩, ⟨rfl, rfl, ?_⟩, ⟨rfl, rfl, ?_⟩,
          ⟨rfl, rfl, ?_, ?_⟩, ⟨?_, ?_, ?_, rfl⟩⟩ <;>
    simp [searchRelayGET, luckyRelayGET, signalRelayGET, healthRelayGET,
      healthRelayJsonGET, nonCacheable, List.lookup]
